import Mathlib

/-!
Verification of the fusion feed-pull engine (`service/pull`): the update
decision policy (`handle.go`), the single-feed fetch-then-persist cycle
(`singlefeed.go`), and the batch scheduler / top-level puller (`pull.go`).

Go pointer-typed fields become `Option`; `time.Time` / `time.Duration`
become `Int` nanoseconds; a Go `error` value becomes `Option GoErr`
(`none` = nil); functions that interact with storage additionally return
the list of storage calls they issued, so that claims about which calls
reach the repositories are statable.
-/

namespace Fusion

/-- Modelled from the spec: `model.Item` (the `model` package is not under
src). Spec section 3: an item carries title, link, content, a GUID
de-duplication key, a publish date, and a `feedID` foreign key assigned by
the core after fetch. Only `feedID` is inspected by the pull code. -/
structure Item where
  title : Option String := none
  guid : Option String := none
  link : Option String := none
  content : Option String := none
  pubDate : Option Int := none
  feedID : Nat := 0
  deriving Repr, DecidableEq

/-- Per-feed fetch configuration (`model.FeedRequestOptions`), treated
opaquely by the pull code. -/
structure FeedRequestOptions where
  reqProxy : Option String := none
  deriving Repr, DecidableEq

/-- Modelled from the spec: `model.Feed` (the `model` package is not under
src). Spec section 3: numeric ID, nullable `link`, nullable `lastBuild`,
nullable free-text `failure`, user-controlled `suspended` flag, `updatedAt`
last-touch time, and per-feed request options. Nullable Go pointer fields
are `Option`; times are `Int` nanoseconds. -/
structure Feed where
  id : Nat := 0
  name : Option String := none
  link : Option String := none
  lastBuild : Option Int := none
  failure : Option String := none
  suspended : Option Bool := none
  updatedAt : Int := 0
  requestOptions : FeedRequestOptions := {}
  deriving Repr, DecidableEq

/-- Modelled from the spec: `model.Feed.IsSuspended` (not under src; its
behaviour is pinned by `TestDecideFeedUpdateAction` in handle.go, where a
nil `Suspended` counts as not suspended). Go: `f.Suspended != nil &&
*f.Suspended`. -/
def Feed.IsSuspended (f : Feed) : Bool :=
  match f.suspended with
  | some b => b
  | none => false

/-- Modelled from the spec: `model.Feed.IsFailed` (not under src; pinned by
`TestDecideFeedUpdateAction`: nil failure and explicit empty-string failure
both count as not failed). Go: `f.Failure != nil && *f.Failure != ""`. -/
def Feed.IsFailed (f : Feed) : Bool :=
  match f.failure with
  | some s => s != ""
  | none => false

/-- A Go error value. `isNotFound` models whether
`errors.Is(err, repo.ErrNotFound)` holds (the `repo` package's sentinel is
not under src, so the wrap-chain test is abstracted to this flag). -/
structure GoErr where
  msg : String
  isNotFound : Bool := false
  deriving Repr, DecidableEq

/-- `interval` from pull.go: `30 * time.Minute`, in nanoseconds. -/
def interval : Int := 1800000000000

/-- `FeedUpdateAction` from handle.go. -/
inductive FeedUpdateAction where
  | ActionFetchUpdate
  | ActionSkipUpdate
  deriving Repr, DecidableEq

/-- `FeedSkipReason` from handle.go: the three global skip reasons.
`DecideFeedUpdateAction` only ever returns the address of one of these
globals or nil, so Go's pointer identity test coincides with value
equality on this enumeration. -/
inductive FeedSkipReason where
  | SkipReasonSuspended
  | SkipReasonLastUpdateFailed
  | SkipReasonTooSoon
  deriving Repr, DecidableEq

/-- `DecideFeedUpdateAction` from handle.go lines 105-114: suspended wins,
then recorded failure, then the 30-minute interval rule, else fetch. -/
def DecideFeedUpdateAction (f : Feed) (now : Int) :
    FeedUpdateAction × Option FeedSkipReason :=
  if f.IsSuspended then
    (FeedUpdateAction.ActionSkipUpdate, some FeedSkipReason.SkipReasonSuspended)
  else if f.IsFailed then
    (FeedUpdateAction.ActionSkipUpdate, some FeedSkipReason.SkipReasonLastUpdateFailed)
  else if now - f.updatedAt < interval then
    (FeedUpdateAction.ActionSkipUpdate, some FeedSkipReason.SkipReasonTooSoon)
  else
    (FeedUpdateAction.ActionFetchUpdate, none)

/-- Outcome of one run of `Puller.do` (handle.go lines 52-79): either the
feed was skipped before any fetch (with the logged skip reason), or the
single-feed pull ran and produced `res` (`none` = nil error). -/
inductive DoOutcome where
  | skipped (reason : Option FeedSkipReason)
  | fetched (res : Option GoErr)
  deriving Repr, DecidableEq

/-- `Puller.do` from handle.go lines 52-79, with the single-feed pull's
return value abstracted as `pullResult`. The suspended check happens
before the `force` check; with `force` set, any other skip decision is
overridden and the fetch proceeds. -/
def doOutcome (f : Feed) (now : Int) (force : Bool)
    (pullResult : Option GoErr) : DoOutcome :=
  match DecideFeedUpdateAction f now with
  | (updateAction, skipReason) =>
    if skipReason = some FeedSkipReason.SkipReasonSuspended then
      DoOutcome.skipped skipReason
    else if force = false ∧ updateAction = FeedUpdateAction.ActionSkipUpdate then
      DoOutcome.skipped skipReason
    else
      DoOutcome.fetched pullResult

/-- The error value `Puller.do` returns: nil on a skip, and the pull's own
result otherwise (handle.go lines 56-78). -/
def doReturn (f : Feed) (now : Int) (force : Bool)
    (pullResult : Option GoErr) : Option GoErr :=
  match doOutcome f now force pullResult with
  | DoOutcome.skipped _ => none
  | DoOutcome.fetched r => r

/-- The partial `model.Feed` value the pull code passes to
`FeedRepo.Update`: only the fields that `Puller.updateFeed` ever sets.
A `none` field is absent from the partial update. -/
structure FeedPatch where
  lastBuild : Option Int := none
  failure : Option String := none
  deriving Repr, DecidableEq

/-- One call issued to the storage collaborators:
`ItemRepo.Insert(items)` or `FeedRepo.Update(feedID, patch)`. -/
inductive StorageCall where
  | insert (items : List Item)
  | update (feedID : Nat) (patch : FeedPatch)
  deriving Repr, DecidableEq

/-- `client.FeedFetchResult` (client/client.go): a successful fetch yields
an optional feed-level last-build time and a list of items. -/
structure FeedFetchResult where
  lastBuild : Option Int := none
  items : List Item := []
  deriving Repr, DecidableEq

/-- `Puller.updateFeed` from singlefeed.go lines 61-84, parameterised by
the repositories' results (`none` = nil error) and additionally returning
the list of storage calls issued, in order. Faithful details: items are
re-tagged with `feedID` before insert; the insert is skipped when `items`
is empty; the success update sets `Failure` to `ptr.To("")` and does not
set `LastBuild` (that line is commented out in the source with a TODO). -/
def updateFeedGo (feedRepoUpdate : Nat → FeedPatch → Option GoErr)
    (itemRepoInsert : List Item → Option GoErr)
    (feedID : Nat) (items : List Item) (requestError : Option GoErr) :
    Option GoErr × List StorageCall :=
  match requestError with
  | some reqErr =>
      let patch : FeedPatch := { failure := some reqErr.msg }
      (feedRepoUpdate feedID patch, [StorageCall.update feedID patch])
  | none =>
      let tagged := items.map (fun it => { it with feedID := feedID })
      if items.length > 0 then
        match itemRepoInsert tagged with
        | some insErr => (some insErr, [StorageCall.insert tagged])
        | none =>
            let patch : FeedPatch := { failure := some "" }
            (feedRepoUpdate feedID patch,
              [StorageCall.insert tagged, StorageCall.update feedID patch])
      else
        let patch : FeedPatch := { failure := some "" }
        (feedRepoUpdate feedID patch, [StorageCall.update feedID patch])

/-- `SingleFeedPuller.Pull` from singlefeed.go lines 37-49, parameterised
by the fetch collaborator (`readFeed`, whose `Except.error` is a request
error) and the repositories. The unconditional `*feed.Link` dereference is
modelled by the outer `Option`: `none` means the nil-pointer dereference,
which has no defined result. The source returns `readErr` directly when
the fetch fails and otherwise calls `updateFeed` with a nil
`requestError`. -/
def PullGo
    (readFeed : String → FeedRequestOptions → Except GoErr FeedFetchResult)
    (feedRepoUpdate : Nat → FeedPatch → Option GoErr)
    (itemRepoInsert : List Item → Option GoErr)
    (feed : Feed) : Option (Option GoErr × List StorageCall) :=
  match feed.link with
  | none => none
  | some url =>
      match readFeed url feed.requestOptions with
      | Except.error readErr => some (some readErr, [])
      | Except.ok fetchResult =>
          some (updateFeedGo feedRepoUpdate itemRepoInsert feed.id
            fetchResult.items none)

/-- `FeedPullError` from pull.go: a feed paired with its pull error. -/
structure FeedPullError where
  feed : Feed
  err : GoErr
  deriving Repr, DecidableEq

/-- The loop body of `PullFeeds` (pull.go lines 106-125): one unit of work
per feed; a non-nil `pullFeed` result appends one `FeedPullError` to the
shared error list. The concurrent tasks each append at most once under a
mutex and `wg.Wait` fans in before returning, so the collected multiset is
schedule-independent; the model serialises the appends in input order. -/
def pullFeedsLoop (pullFeed : Feed → Bool → Option GoErr) (force : Bool) :
    List Feed → List FeedPullError → List FeedPullError
  | [], errs => errs
  | f :: rest, errs =>
      match pullFeed f force with
      | some e => pullFeedsLoop pullFeed force rest (errs ++ [⟨f, e⟩])
      | none => pullFeedsLoop pullFeed force rest errs

/-- `PullFeeds` from pull.go lines 92-128. `maxWorkers` is normalised to 1
when non-positive and bounds only how many tasks are simultaneously in
flight (the semaphore channel); it does not affect which errors are
collected. -/
def PullFeeds (feeds : List Feed) (force : Bool) (maxWorkers : Int)
    (pullFeed : Feed → Bool → Option GoErr) : List FeedPullError :=
  let _workerBudget := if maxWorkers ≤ 0 then 1 else maxWorkers
  pullFeedsLoop pullFeed force feeds []

/-- What one `Puller.PullAll` invocation did: its returned error value,
whether `PullFeeds` was reached, and the per-feed errors it logged. -/
structure PullAllResult where
  ret : Option GoErr
  pulled : Bool
  loggedErrs : List FeedPullError
  deriving Repr, DecidableEq

/-- `Puller.PullAll` from pull.go lines 60-80, parameterised by the result
of `feedRepo.List` and the per-feed pull function. A listing error that is
`repo.ErrNotFound` is masked to nil; any other listing error is returned;
an empty feed list returns nil before pulling; otherwise the batch runs
with a worker budget of 10 and every per-feed error is logged, not
returned. -/
def PullAll (listFeeds : Except GoErr (List Feed)) (force : Bool)
    (pullFeed : Feed → Bool → Option GoErr) : PullAllResult :=
  match listFeeds with
  | Except.error e =>
      if e.isNotFound then { ret := none, pulled := false, loggedErrs := [] }
      else { ret := some e, pulled := false, loggedErrs := [] }
  | Except.ok feeds =>
      if feeds.length = 0 then
        { ret := none, pulled := false, loggedErrs := [] }
      else
        { ret := none, pulled := true,
          loggedErrs := PullFeeds feeds force 10 pullFeed }

/-- The feed used by the concrete scenarios (id 42, as in
singlefeed_test.go and spec section 8). -/
def feed42 : Feed :=
  { id := 42, name := some "Test Feed",
    link := some "https://example.com/feed.xml" }

/-- The request error returned by the fetch collaborator in the failing
scenarios ("dummy feed read error", as in singlefeed_test.go). -/
def readErr42 : GoErr := { msg := "dummy feed read error" }

/-- First item of the two-item success scenario. -/
def item1 : Item :=
  { title := some "Test Item 1", guid := some "guid1",
    link := some "https://example.com/item1", content := some "Content 1" }

/-- Second item of the two-item success scenario. -/
def item2 : Item :=
  { title := some "Test Item 2", guid := some "guid2",
    link := some "https://example.com/item2", content := some "Content 2" }

/-- A successful fetch result carrying a feed-level last-build time and
two items (the scenario of spec section 8). -/
def fetch42 : FeedFetchResult :=
  { lastBuild := some 1735732800000000000, items := [item1, item2] }

/-- A suspended feed with a stale `updatedAt` and a recorded failure, used
to witness that suspension wins over everything. -/
def suspendedFeed : Feed :=
  { id := 7, suspended := some true, failure := some "boom" }

/-- A non-suspended feed with a recorded failure message. -/
def failedFeed : Feed :=
  { id := 7, suspended := some false, failure := some "boom" }

/-- A non-suspended, non-failed feed last touched at time 0. -/
def freshFeed : Feed :=
  { id := 7, suspended := some false, failure := some "" }

/-- Batch-scheduler witness feed 10. -/
def w7feedA : Feed := { id := 10 }

/-- Batch-scheduler witness feed 20. -/
def w7feedB : Feed := { id := 20 }

/-- Batch-scheduler witness pull function: feed 10 fails, others succeed. -/
def w7pull (f : Feed) (_ : Bool) : Option GoErr :=
  if f.id == 10 then some { msg := "pull failed" } else none

/-- Running the collection loop with a non-empty accumulator prepends the
accumulator to the result of running it with an empty one. -/
theorem pullFeedsLoop_acc (pullFeed : Feed → Bool → Option GoErr)
    (force : Bool) (fs : List Feed) (errs : List FeedPullError) :
    pullFeedsLoop pullFeed force fs errs
      = errs ++ pullFeedsLoop pullFeed force fs [] := by
  induction fs generalizing errs with
  | nil => simp [pullFeedsLoop]
  | cons f rest ih =>
      cases hp : pullFeed f force with
      | none =>
          simp only [pullFeedsLoop, hp]
          exact ih errs
      | some e =>
          simp only [pullFeedsLoop, hp, List.nil_append]
          rw [ih (errs ++ [FeedPullError.mk f e]), ih [FeedPullError.mk f e]]
          simp

/-- Loop equation: a feed whose pull succeeds contributes nothing. -/
theorem pullFeedsLoop_cons_none (pullFeed : Feed → Bool → Option GoErr)
    (force : Bool) (f : Feed) (rest : List Feed)
    (hp : pullFeed f force = none) :
    pullFeedsLoop pullFeed force (f :: rest) []
      = pullFeedsLoop pullFeed force rest [] := by
  simp only [pullFeedsLoop, hp]

/-- Loop equation: a feed whose pull fails contributes exactly one
`FeedPullError` for that feed. -/
theorem pullFeedsLoop_cons_some (pullFeed : Feed → Bool → Option GoErr)
    (force : Bool) (f : Feed) (rest : List Feed) (e : GoErr)
    (hp : pullFeed f force = some e) :
    pullFeedsLoop pullFeed force (f :: rest) []
      = FeedPullError.mk f e :: pullFeedsLoop pullFeed force rest [] := by
  simp only [pullFeedsLoop, hp, List.nil_append]
  rw [pullFeedsLoop_acc]
  simp

/-- The number of collected errors equals the number of feeds whose pull
returned a non-nil error. -/
theorem pullFeedsLoop_length (pullFeed : Feed → Bool → Option GoErr)
    (force : Bool) (fs : List Feed) :
    (pullFeedsLoop pullFeed force fs []).length
      = (fs.filter (fun f => (pullFeed f force).isSome)).length := by
  induction fs with
  | nil => simp [pullFeedsLoop]
  | cons f rest ih =>
      cases hp : pullFeed f force with
      | none =>
          rw [pullFeedsLoop_cons_none pullFeed force f rest hp]
          simp [List.filter_cons, hp, ih]
      | some e =>
          rw [pullFeedsLoop_cons_some pullFeed force f rest e hp]
          simp [List.filter_cons, hp, ih]

/-- Counting collected errors by feed ID equals counting input feeds with
that ID whose pull failed. -/
theorem pullFeedsLoop_countP (pullFeed : Feed → Bool → Option GoErr)
    (force : Bool) (i : Nat) (fs : List Feed) :
    (pullFeedsLoop pullFeed force fs []).countP (fun pe => pe.feed.id == i)
      = fs.countP (fun g => g.id == i && (pullFeed g force).isSome) := by
  induction fs with
  | nil => simp [pullFeedsLoop]
  | cons f rest ih =>
      cases hp : pullFeed f force with
      | none =>
          rw [pullFeedsLoop_cons_none pullFeed force f rest hp,
            List.countP_cons, ih]
          simp [hp]
      | some e =>
          rw [pullFeedsLoop_cons_some pullFeed force f rest e hp,
            List.countP_cons, List.countP_cons, ih]
          simp [hp]

/-- With pairwise-distinct feed IDs, the per-ID failure count over the
input list is 1 or 0 according to whether that feed's pull failed. -/
theorem countP_feeds_nodup (pullFeed : Feed → Bool → Option GoErr)
    (force : Bool) :
    ∀ (fs : List Feed), (fs.map Feed.id).Nodup → ∀ f ∈ fs,
      fs.countP (fun g => g.id == f.id && (pullFeed g force).isSome)
        = if (pullFeed f force).isSome then 1 else 0 := by
  intro fs
  induction fs with
  | nil =>
      intro _ f hf
      cases hf
  | cons a rest ih =>
      intro hnd f hf
      have hnd' : (rest.map Feed.id).Nodup :=
        (List.nodup_cons.mp ((List.map_cons Feed.id a rest) ▸ hnd)).2
      have ha : a.id ∉ rest.map Feed.id :=
        (List.nodup_cons.mp ((List.map_cons Feed.id a rest) ▸ hnd)).1
      rcases List.mem_cons.mp hf with rfl | hfr
      · rw [List.countP_cons]
        have hrest : rest.countP
            (fun g => g.id == f.id && (pullFeed g force).isSome) = 0 := by
          rw [List.countP_eq_zero]
          intro g hg
          have hne : g.id ≠ f.id := by
            intro hEq
            exact ha (hEq ▸ List.mem_map_of_mem Feed.id hg)
          simp [hne]
        rw [hrest]
        simp
      · rw [List.countP_cons, ih hnd' f hfr]
        have hne : a.id ≠ f.id := by
          intro hEq
          exact ha (hEq ▸ List.mem_map_of_mem Feed.id hfr)
        simp [hne]

/-- C1: the claim states that a fetch request error makes
`SingleFeedPuller.Pull` return nil with the message recorded into storage
as the feed's failure, and that only storage failures propagate. On the
code as written (singlefeed.go lines 44-47), evaluating `Pull` on feed 42
with a fetch collaborator returning a request error shows `Pull` returning
that error non-nil and issuing no storage call at all — contradicting the
claim and the repository's own test, which expects no error and the
message recorded. -/
theorem c1_pull_propagates_fetch_error_and_records_nothing :
    PullGo (fun _ _ => Except.error readErr42) (fun _ _ => none)
      (fun _ => none) feed42 = some (some readErr42, []) := rfl

/-- C2: the claim states that on a successful fetch the items are tagged
with the feed's ID, bulk-inserted, and then one update writes the new
`lastBuild` and clears `failure`. Evaluating the code on feed 42 with a
successful two-item fetch carrying a last-build time shows the tagging,
the insert, and the failure-clearing update — but the update's `LastBuild`
field is absent (`none`): the write is commented out in singlefeed.go line
81 with a TODO, contradicting the claim, the `UpdateFeedFn` doc comment,
and the repository's own test, which expects the fetched last-build time
to be stored. -/
theorem c2_success_update_lacks_lastBuild :
    PullGo (fun _ _ => Except.ok fetch42) (fun _ _ => none)
      (fun _ => none) feed42
      = some (none,
          [StorageCall.insert
              [{ item1 with feedID := 42 }, { item2 with feedID := 42 }],
           StorageCall.update 42 { lastBuild := none, failure := some "" }])
      := rfl

/-- C3: the claim states that a fetch request error results in exactly one
storage update call (setting `failure` to the error's message) and no
insert. On the code as written, evaluating `Pull` on feed 42 with a
failing fetch shows the storage trace is empty: zero update calls and zero
inserts, because `Pull` returns the fetch error before calling
`updateFeed` (singlefeed.go lines 45-47), whose failure-recording branch
is unreachable from `Pull`. -/
theorem c3_fetch_error_issues_zero_storage_calls :
    (PullGo (fun _ _ => Except.error readErr42) (fun _ _ => none)
      (fun _ => none) feed42).map Prod.snd = some [] := rfl

/-- C4: for every feed with `suspended = true`, and for every `updatedAt`,
`failure`, current time, force flag and pull result, the decision is
Skip/Suspended, `Puller.do` skips before any fetch, and `do` returns nil:
force never overrides suspension. -/
theorem c4_suspension_always_wins (f : Feed) (now : Int) (force : Bool)
    (pullResult : Option GoErr) (h : f.suspended = some true) :
    DecideFeedUpdateAction f now
        = (FeedUpdateAction.ActionSkipUpdate,
           some FeedSkipReason.SkipReasonSuspended)
      ∧ doOutcome f now force pullResult
        = DoOutcome.skipped (some FeedSkipReason.SkipReasonSuspended)
      ∧ doReturn f now force pullResult = none := by
  have hs : f.IsSuspended = true := by simp [Feed.IsSuspended, h]
  refine ⟨?_, ?_, ?_⟩ <;>
    simp [DecideFeedUpdateAction, doOutcome, doReturn, hs]

/-- Witness for C4 at a concrete suspended feed with a recorded failure,
`force = true` and a failing pull. -/
theorem c4_suspension_always_wins_witness :
    suspendedFeed.suspended = some true
      ∧ (DecideFeedUpdateAction suspendedFeed 0
            = (FeedUpdateAction.ActionSkipUpdate,
               some FeedSkipReason.SkipReasonSuspended)
          ∧ doOutcome suspendedFeed 0 true (some readErr42)
            = DoOutcome.skipped (some FeedSkipReason.SkipReasonSuspended)
          ∧ doReturn suspendedFeed 0 true (some readErr42) = none) :=
  ⟨rfl, c4_suspension_always_wins suspendedFeed 0 true (some readErr42) rfl⟩

/-- C5: for every non-suspended feed, a non-empty failure string yields
Skip/LastUpdateFailed (and `do` skips unless force is set, in which case
the fetch proceeds), while an explicit empty-string failure and a
null/unset failure are both treated as no failure and fall through to the
time-interval rule. -/
theorem c5_failure_three_way_distinction (f : Feed) (now : Int)
    (pullResult : Option GoErr) (hns : f.IsSuspended = false) :
    (∀ msg, f.failure = some msg → msg ≠ "" →
        DecideFeedUpdateAction f now
            = (FeedUpdateAction.ActionSkipUpdate,
               some FeedSkipReason.SkipReasonLastUpdateFailed)
          ∧ doOutcome f now false pullResult
            = DoOutcome.skipped (some FeedSkipReason.SkipReasonLastUpdateFailed)
          ∧ doOutcome f now true pullResult = DoOutcome.fetched pullResult)
      ∧ ((f.failure = some "" ∨ f.failure = none) →
          DecideFeedUpdateAction f now
            = (if now - f.updatedAt < interval then
                (FeedUpdateAction.ActionSkipUpdate,
                 some FeedSkipReason.SkipReasonTooSoon)
               else (FeedUpdateAction.ActionFetchUpdate, none))) := by
  constructor
  · intro msg hm hne
    have hf : f.IsFailed = true := by simp [Feed.IsFailed, hm, hne]
    refine ⟨?_, ?_, ?_⟩ <;>
      simp [DecideFeedUpdateAction, doOutcome, hns, hf]
  · intro hno
    have hf : f.IsFailed = false := by
      rcases hno with h | h <;> simp [Feed.IsFailed, h]
    by_cases ht : now - f.updatedAt < interval <;>
      simp [DecideFeedUpdateAction, hns, hf, ht]

/-- Witness for C5 at a concrete non-suspended feed whose failure is
"boom", at time 0 with a nil pull result. -/
theorem c5_failure_three_way_distinction_witness :
    failedFeed.IsSuspended = false
      ∧ ((∀ msg, failedFeed.failure = some msg → msg ≠ "" →
            DecideFeedUpdateAction failedFeed 0
                = (FeedUpdateAction.ActionSkipUpdate,
                   some FeedSkipReason.SkipReasonLastUpdateFailed)
              ∧ doOutcome failedFeed 0 false none
                = DoOutcome.skipped
                    (some FeedSkipReason.SkipReasonLastUpdateFailed)
              ∧ doOutcome failedFeed 0 true none = DoOutcome.fetched none)
          ∧ ((failedFeed.failure = some "" ∨ failedFeed.failure = none) →
              DecideFeedUpdateAction failedFeed 0
                = (if (0 : Int) - failedFeed.updatedAt < interval then
                    (FeedUpdateAction.ActionSkipUpdate,
                     some FeedSkipReason.SkipReasonTooSoon)
                   else (FeedUpdateAction.ActionFetchUpdate, none)))) :=
  ⟨rfl, c5_failure_three_way_distinction failedFeed 0 none rfl⟩

/-- C6: for every non-suspended, non-failed feed, when
`now - updatedAt < interval` the decision is Skip/TooSoon (and `do` skips
unless force is set, in which case the fetch proceeds), and at exactly
`now - updatedAt = interval` the decision is Fetch: the boundary belongs
to the fetch side. -/
theorem c6_interval_boundary_fetches (f : Feed) (now : Int)
    (pullResult : Option GoErr) (hns : f.IsSuspended = false)
    (hnf : f.IsFailed = false) :
    (now - f.updatedAt < interval →
        DecideFeedUpdateAction f now
            = (FeedUpdateAction.ActionSkipUpdate,
               some FeedSkipReason.SkipReasonTooSoon)
          ∧ doOutcome f now false pullResult
            = DoOutcome.skipped (some FeedSkipReason.SkipReasonTooSoon)
          ∧ doOutcome f now true pullResult = DoOutcome.fetched pullResult)
      ∧ (now - f.updatedAt = interval →
          DecideFeedUpdateAction f now
            = (FeedUpdateAction.ActionFetchUpdate, none)
          ∧ doOutcome f now false pullResult
            = DoOutcome.fetched pullResult) := by
  constructor
  · intro ht
    refine ⟨?_, ?_, ?_⟩ <;>
      simp [DecideFeedUpdateAction, doOutcome, hns, hnf, ht]
  · intro ht
    have hnlt : ¬ now - f.updatedAt < interval := by
      rw [ht]
      exact lt_irrefl interval
    constructor <;>
      simp [DecideFeedUpdateAction, doOutcome, hns, hnf, hnlt]

/-- Witness for C6 at a concrete fresh feed, taken exactly at the
30-minute boundary, so the second implication fires. -/
theorem c6_interval_boundary_fetches_witness :
    freshFeed.IsSuspended = false ∧ freshFeed.IsFailed = false
      ∧ ((interval - freshFeed.updatedAt < interval →
            DecideFeedUpdateAction freshFeed interval
                = (FeedUpdateAction.ActionSkipUpdate,
                   some FeedSkipReason.SkipReasonTooSoon)
              ∧ doOutcome freshFeed interval false none
                = DoOutcome.skipped (some FeedSkipReason.SkipReasonTooSoon)
              ∧ doOutcome freshFeed interval true none
                = DoOutcome.fetched none)
          ∧ (interval - freshFeed.updatedAt = interval →
              DecideFeedUpdateAction freshFeed interval
                = (FeedUpdateAction.ActionFetchUpdate, none)
              ∧ doOutcome freshFeed interval false none
                = DoOutcome.fetched none)) :=
  ⟨rfl, rfl, c6_interval_boundary_fetches freshFeed interval none rfl rfl⟩

/-- C7: for every list of feeds with pairwise-distinct IDs, every force
flag and every `maxWorkers`, `PullFeeds` returns the same error set as
with `maxWorkers = 1` (so in particular `maxWorkers = 0` behaves like 1),
containing exactly one `FeedPullError` per feed whose pull function
returned a non-nil error — K entries when K fail, keyed by feed ID — and
the empty list on full success. -/
theorem c7_pullFeeds_exact_error_set (feeds : List Feed) (force : Bool)
    (m : Int) (pullFeed : Feed → Bool → Option GoErr)
    (hids : (feeds.map Feed.id).Nodup) :
    PullFeeds feeds force m pullFeed = PullFeeds feeds force 1 pullFeed
      ∧ (PullFeeds feeds force m pullFeed).length
          = (feeds.filter (fun f => (pullFeed f force).isSome)).length
      ∧ (∀ f ∈ feeds,
          (PullFeeds feeds force m pullFeed).countP
              (fun pe => pe.feed.id == f.id)
            = if (pullFeed f force).isSome then 1 else 0)
      ∧ ((∀ f ∈ feeds, pullFeed f force = none) →
          PullFeeds feeds force m pullFeed = []) := by
  have hdef : ∀ k : Int, PullFeeds feeds force k pullFeed
      = pullFeedsLoop pullFeed force feeds [] := fun _ => rfl
  refine ⟨by rw [hdef, hdef], ?_, ?_, ?_⟩
  · rw [hdef]
    exact pullFeedsLoop_length pullFeed force feeds
  · intro f hf
    rw [hdef, pullFeedsLoop_countP pullFeed force f.id feeds]
    exact countP_feeds_nodup pullFeed force feeds hids f hf
  · intro hall
    rw [hdef]
    have h0 : (feeds.filter (fun f => (pullFeed f force).isSome)).length
        = 0 := by
      rw [List.length_eq_zero, List.filter_eq_nil_iff]
      intro a ha
      simp [hall a ha]
    have hlen := pullFeedsLoop_length pullFeed force feeds
    rw [h0] at hlen
    exact List.length_eq_zero.mp hlen

/-- Witness for C7: two feeds with distinct IDs 10 and 20, feed 10's pull
failing, with `maxWorkers = 0`. -/
theorem c7_pullFeeds_exact_error_set_witness :
    ([w7feedA, w7feedB].map Feed.id).Nodup
      ∧ (PullFeeds [w7feedA, w7feedB] false 0 w7pull
            = PullFeeds [w7feedA, w7feedB] false 1 w7pull
          ∧ (PullFeeds [w7feedA, w7feedB] false 0 w7pull).length
              = ([w7feedA, w7feedB].filter
                  (fun f => (w7pull f false).isSome)).length
          ∧ (∀ f ∈ [w7feedA, w7feedB],
              (PullFeeds [w7feedA, w7feedB] false 0 w7pull).countP
                  (fun pe => pe.feed.id == f.id)
                = if (w7pull f false).isSome then 1 else 0)
          ∧ ((∀ f ∈ [w7feedA, w7feedB], w7pull f false = none) →
              PullFeeds [w7feedA, w7feedB] false 0 w7pull = [])) :=
  ⟨by decide,
    c7_pullFeeds_exact_error_set [w7feedA, w7feedB] false 0 w7pull
      (by decide)⟩

/-- C8: `PullAll` returns a non-nil error exactly when the feed listing
itself failed (with an error other than the masked not-found sentinel):
a listing error is returned as-is, while a successful listing — empty or
not, and whatever the per-feed pull errors — always returns nil. -/
theorem c8_pullall_error_only_from_listing (e : GoErr) (feeds : List Feed)
    (force : Bool) (pullFeed : Feed → Bool → Option GoErr) :
    (PullAll (Except.error e) force pullFeed).ret
        = (if e.isNotFound then none else some e)
      ∧ (PullAll (Except.ok []) force pullFeed).ret = none
      ∧ (PullAll (Except.ok feeds) force pullFeed).ret = none := by
  refine ⟨?_, ?_, ?_⟩
  · cases he : e.isNotFound <;> simp [PullAll, he]
  · simp [PullAll]
  · cases feeds <;> simp [PullAll]

/-- C9: when the feed listing fails with the storage layer's not-found
error, `PullAll` masks it and returns nil, reaching no pull: the returned
value is success, nothing was pulled and nothing was logged. -/
theorem c9_notfound_listing_masked (msg : String) (force : Bool)
    (pullFeed : Feed → Bool → Option GoErr) :
    PullAll (Except.error { msg := msg, isNotFound := true }) force pullFeed
      = { ret := none, pulled := false, loggedErrs := [] } := by
  simp [PullAll]

/-- C10: `SingleFeedPuller.Pull` unconditionally dereferences the feed's
link pointer, so its result is defined exactly when the link is non-null:
with a null link the dereference has no defined result (the `none` of the
model), whatever the fetch collaborator and repositories do. -/
theorem c10_pull_defined_iff_link_nonnull
    (readFeed : String → FeedRequestOptions → Except GoErr FeedFetchResult)
    (feedRepoUpdate : Nat → FeedPatch → Option GoErr)
    (itemRepoInsert : List Item → Option GoErr) (feed : Feed) :
    (PullGo readFeed feedRepoUpdate itemRepoInsert feed).isSome
      = feed.link.isSome := by
  cases h : feed.link with
  | none => simp [PullGo, h]
  | some url =>
      cases hr : readFeed url feed.requestOptions with
      | error e => simp [PullGo, h, hr]
      | ok r => simp [PullGo, h, hr]

end Fusion
